import Mathlib

/-!
Verification of the LaTeX-OCR-Document-Forger pipeline (`src/main.py`), a
Mathpix API client that uploads a PDF, polls for completion, downloads the
converted outputs into a timestamped directory, and estimates a processing
cost from the page count.

The embedding below translates each function of `MathpixProcessor` into Lean:
pure functions become Lean functions; the HTTP collaborator becomes an explicit
argument (a map from request to response); the filesystem becomes an explicit
record threaded through `download_results`; Python exceptions become `Except`
values or explicit result constructors.
-/

namespace Forger

/-! ### Constants from the configuration block -/

/-- Seconds between status checks (`POLLING_INTERVAL = 2`). -/
def POLLING_INTERVAL : Nat := 2

/-- Maximum processing time in seconds (`TIMEOUT = 600`). -/
def TIMEOUT : Nat := 600

/-- The keys of the `OUTPUT_FORMATS` dict, in insertion (= iteration) order. -/
def FMT_KEYS : List String := ["mmd", "tex.zip", "html"]

/-! ### `calculate_cost`

`calculate_cost(num_pages)` returns `num_pages * 0.025` when
`num_pages <= 40000` and `num_pages * 0.01` otherwise.  Python floats are
modelled as exact rationals; the literals `0.025` and `0.01` are exact in `ℚ`.
-/

/-- Shallow embedding of `MathpixProcessor.calculate_cost`. -/
def calculate_cost (num_pages : Int) : ℚ :=
  if num_pages ≤ 40000 then (num_pages : ℚ) * 0.025
  else (num_pages : ℚ) * 0.01

end Forger

namespace Forger

/-! ### `wait_for_processing`

The polling loop checks the elapsed wall-clock time against `TIMEOUT` at the
top of each iteration, then issues one status request.  Status `"completed"`
returns normally, status `"error"` raises carrying the whole status payload,
and anything else sleeps `POLLING_INTERVAL` seconds and retries.  The service
is modelled as a map from the poll index to the status response; elapsed time
advances by exactly the slept interval per iteration.
-/

/-- The JSON status payload read by `wait_for_processing`: the `status` string
plus the progress fields read with `.get(..., 0)`. -/
structure StatusResponse where
  status : String
  percent_done : Nat := 0
  num_pages_completed : Nat := 0
  num_pages : Nat := 0
deriving DecidableEq

/-- Outcome of the polling loop, recording how many status requests were
issued, how many sleeps were performed, and (on timeout) the elapsed time at
which `TimeoutError` was raised. -/
inductive WaitResult where
  | completed (requests sleeps : Nat)
  | procError (payload : StatusResponse) (requests sleeps : Nat)
  | timedOut (requests sleeps elapsedAt : Nat)
deriving DecidableEq

/-- One state of the `while True` loop of `wait_for_processing`: `k` polls
have happened so far (each followed by a sleep), `elapsed` seconds have
passed. -/
def waitLoop (svc : Nat → StatusResponse) (k elapsed : Nat) : WaitResult :=
  if elapsed > TIMEOUT then .timedOut k k elapsed
  else if (svc k).status = "completed" then .completed (k + 1) k
  else if (svc k).status = "error" then .procError (svc k) (k + 1) k
  else waitLoop svc (k + 1) (elapsed + POLLING_INTERVAL)
termination_by TIMEOUT + 1 - elapsed
decreasing_by simp only [TIMEOUT, POLLING_INTERVAL] at *; omega

/-- Shallow embedding of `MathpixProcessor.wait_for_processing`: run the loop
from zero elapsed time and zero polls. -/
def wait_for_processing (svc : Nat → StatusResponse) : WaitResult :=
  waitLoop svc 0 0

end Forger

namespace Forger

/-! ### `download_results`

`download_results(pdf_id, output_dir)` takes a timestamp at the start of the
call, makes `output_dir/<timestamp>` (with `exist_ok=True`), then for each
format key of `OUTPUT_FORMATS` issues one GET; on a 200 response it writes the
body to `output_dir/<timestamp>/notes_<timestamp>.<fmt>` and records the path
in the returned dict, and on any other status it silently moves on.

Paths are modelled as component lists, the filesystem as a record of created
directories plus an association list of written files (most recent write
first, so a later write to the same path shadows — overwrites — the earlier
one).  The timestamp `datetime.now().strftime(...)` is an input of the
embedding, and the per-format GET is a map from format key to response.
-/

/-- A filesystem path, as its list of components. -/
abbrev FsPath := List String

/-- The filesystem state visible to `download_results`: directories created
and files written.  A later write to the same path shadows the earlier one. -/
structure FS where
  dirs : List FsPath
  files : List (FsPath × String)
deriving DecidableEq

/-- `Path.mkdir(parents=True, exist_ok=True)`. -/
def FS.mkdir (fs : FS) (p : FsPath) : FS :=
  { fs with dirs := p :: fs.dirs }

/-- `open(path, 'wb').write(content)`: the new content shadows any previous
file at the same path. -/
def FS.write (fs : FS) (p : FsPath) (c : String) : FS :=
  { fs with files := (p, c) :: fs.files }

/-- Look a path up in the written-files list (first match wins). -/
def readFiles : List (FsPath × String) → FsPath → Option String
  | [], _ => none
  | (q, c) :: rest, p => if q = p then some c else readFiles rest p

/-- The content currently stored at `p`, if any. -/
def FS.read (fs : FS) (p : FsPath) : Option String :=
  readFiles fs.files p

/-- An HTTP response to a download GET: status code and body bytes. -/
structure DlResponse where
  status_code : Nat
  content : String
deriving DecidableEq

/-- `f"notes_{timestamp}.{fmt}"`. -/
def fname (ts fmt : String) : String :=
  "notes_" ++ ts ++ "." ++ fmt

/-- The `for fmt in OUTPUT_FORMATS` loop of `download_results`: one GET per
format, writing and recording the output path exactly when the status is
200. -/
def downloadLoop (svc : String → DlResponse) (dirPath : FsPath) (ts : String) :
    List String → FS → FS × List (String × FsPath)
  | [], fs => (fs, [])
  | fmt :: rest, fs =>
    if (svc fmt).status_code = 200 then
      let out := downloadLoop svc dirPath ts rest
        (fs.write (dirPath ++ [fname ts fmt]) (svc fmt).content)
      (out.1, (fmt, dirPath ++ [fname ts fmt]) :: out.2)
    else downloadLoop svc dirPath ts rest fs

/-- Shallow embedding of `MathpixProcessor.download_results`.  `svc fmt`
stands for the GET of `API_ENDPOINTS['download'](pdf_id, fmt)`; `ts` is the
timestamp taken at the start of the call. -/
def download_results (svc : String → DlResponse) (output_dir : FsPath)
    (ts : String) (fs : FS) : FS × List (String × FsPath) :=
  downloadLoop svc (output_dir ++ [ts]) ts FMT_KEYS (fs.mkdir (output_dir ++ [ts]))

/-! ### `__init__` and `process_pdf`

`__init__` reads both credentials from the environment and raises
`EnvironmentError` when either is missing or empty (Python falsiness of
`None` and `""`).  `process_pdf` posts the upload and raises a generic
`Exception` carrying `response.text` on any non-200 status; on 200 it returns
the `pdf_id` field of the JSON body.
-/

/-- The two failure shapes of the upload path: the `EnvironmentError` raised
by `__init__` and the generic `Exception` raised by `process_pdf` on a
non-200 upload response. -/
inductive PdfError where
  | missingCredentials (msg : String)
  | uploadFailed (msg : String)
deriving DecidableEq

/-- The message of the `EnvironmentError` raised by `__init__`. -/
def MISSING_CREDS_MSG : String :=
  "Missing Mathpix credentials. Please set MATHPIX_APP_ID and MATHPIX_APP_KEY in .env file"

/-- Python falsiness of an optional string: `None` and `""` are falsy. -/
def pyFalsy : Option String → Bool
  | none => true
  | some s => s = ""

/-- The state built by a successful `MathpixProcessor.__init__`. -/
structure Processor where
  app_id : String
  app_key : String
deriving DecidableEq

/-- Shallow embedding of `MathpixProcessor.__init__`: `os.getenv` yields an
optional string for each credential; `if not self.app_id or not self.app_key`
raises. -/
def mkProcessor (app_id app_key : Option String) : Except PdfError Processor :=
  if pyFalsy app_id || pyFalsy app_key then
    Except.error (PdfError.missingCredentials MISSING_CREDS_MSG)
  else
    Except.ok ⟨app_id.getD "", app_key.getD ""⟩

/-- The response to the upload POST: status code, body text, and the
`pdf_id` field of the JSON body. -/
structure UploadResponse where
  status_code : Nat
  text : String
  pdf_id : String
deriving DecidableEq

/-- Shallow embedding of `MathpixProcessor.process_pdf` after the POST has
returned `resp`. -/
def process_pdf (resp : UploadResponse) : Except PdfError String :=
  if resp.status_code ≠ 200 then
    Except.error (PdfError.uploadFailed ("PDF processing failed: " ++ resp.text))
  else
    Except.ok resp.pdf_id

/-- Whether a `process_pdf` outcome is the missing-credentials
(authentication) error rather than the upload error. -/
def isAuthError : Except PdfError String → Bool
  | Except.error (PdfError.missingCredentials _) => true
  | _ => false

end Forger

namespace Forger

/-! ### Helper lemmas and concrete services -/

/-- A service answering `"completed"` on every poll. -/
def svcCompleted : Nat → StatusResponse :=
  fun _ => { status := "completed", percent_done := 100 }

/-- A service answering `"error"` on every poll. -/
def svcErrorAlways : Nat → StatusResponse :=
  fun _ => { status := "error" }

/-- A service stuck at 0% forever: never a terminal status. -/
def svcStuck : Nat → StatusResponse :=
  fun _ => { status := "processing", percent_done := 0 }

/-- Against a service that never answers a terminal status, the polling loop
runs the clock out: started with `e + POLLING_INTERVAL * m = 602` seconds, it
performs `m` more polls and sleeps and then raises at 602 elapsed seconds. -/
theorem waitLoop_stuck (svc : Nat → StatusResponse)
    (hsvc : ∀ j, (svc j).status ≠ "completed" ∧ (svc j).status ≠ "error") :
    ∀ m k e, e + POLLING_INTERVAL * m = 602 →
      waitLoop svc k e = .timedOut (k + m) (k + m) 602 := by
  intro m
  induction m with
  | zero =>
    intro k e he
    simp only [POLLING_INTERVAL, Nat.mul_zero, Nat.add_zero] at he
    subst he
    rw [waitLoop, if_pos (by simp [TIMEOUT])]
    simp
  | succ m ih =>
    intro k e he
    have hle : ¬ e > TIMEOUT := by
      simp only [POLLING_INTERVAL] at he; simp only [TIMEOUT]; omega
    rw [waitLoop, if_neg hle, if_neg (hsvc k).1, if_neg (hsvc k).2]
    have := ih (k + 1) (e + POLLING_INTERVAL) (by simp only [POLLING_INTERVAL] at *; omega)
    rw [this]
    congr 1 <;> omega

/-! ### Claims about `calculate_cost` -/

/-- Claim C1: for every integer page count in `[0, 40000]` the cost is
`page_count * 0.025`; strictly above 40000 it is `page_count * 0.01`; at the
boundary `calculate_cost 40000 = 1000` exactly (the 40000-page tier is
inclusive of the lower rate). -/
theorem claim_C1 (n : Int) :
    (0 ≤ n → n ≤ 40000 → calculate_cost n = (n : ℚ) * 0.025)
    ∧ (40000 < n → calculate_cost n = (n : ℚ) * 0.01)
    ∧ calculate_cost 40000 = 1000 := by
  refine ⟨fun _ h => by rw [calculate_cost, if_pos h],
          fun h => by rw [calculate_cost, if_neg (by omega)],
          by norm_num [calculate_cost]⟩

/-- Witness for C1 at page counts 100 and 50000. -/
theorem claim_C1_witness :
    ((0 : Int) ≤ 100 ∧ (100 : Int) ≤ 40000
      ∧ calculate_cost 100 = ((100 : Int) : ℚ) * 0.025)
    ∧ ((40000 : Int) < 50000
      ∧ calculate_cost 50000 = ((50000 : Int) : ℚ) * 0.01) :=
  ⟨⟨by decide, by decide, (claim_C1 100).1 (by decide) (by decide)⟩,
   ⟨by decide, (claim_C1 50000).2.1 (by decide)⟩⟩

/-- Claim C8: `calculate_cost 0 = 0`, and a negative page count is not
validated: it falls into the low tier and yields a negative amount. -/
theorem claim_C8 (n : Int) :
    calculate_cost 0 = 0
    ∧ (n < 0 → calculate_cost n = (n : ℚ) * 0.025 ∧ calculate_cost n < 0) := by
  refine ⟨by norm_num [calculate_cost], fun h => ⟨?_, ?_⟩⟩
  · rw [calculate_cost, if_pos (by omega)]
  · rw [calculate_cost, if_pos (by omega)]
    exact mul_neg_of_neg_of_pos (by exact_mod_cast h) (by norm_num)

/-- Witness for C8 at page count `-4`. -/
theorem claim_C8_witness :
    ((-4 : Int) < 0)
    ∧ calculate_cost 0 = 0
    ∧ calculate_cost (-4) = (((-4) : Int) : ℚ) * 0.025
    ∧ calculate_cost (-4) < 0 :=
  ⟨by decide, (claim_C8 (-4)).1,
   ((claim_C8 (-4)).2 (by decide)).1, ((claim_C8 (-4)).2 (by decide)).2⟩

/-- Claim C9: `calculate_cost` is not monotone in the page count: 40000 pages
cost 1000 but 40001 pages cost 400.01, so more pages can be estimated
cheaper. -/
theorem claim_C9 :
    ((40000 : Int) < 40001
      ∧ calculate_cost 40000 = 1000
      ∧ calculate_cost 40001 = 400.01
      ∧ calculate_cost 40001 < calculate_cost 40000)
    ∧ ∃ m n : Int, m < n ∧ calculate_cost n < calculate_cost m := by
  refine ⟨⟨by decide, by norm_num [calculate_cost], by norm_num [calculate_cost],
           by norm_num [calculate_cost]⟩,
          ⟨40000, 40001, by decide, by norm_num [calculate_cost]⟩⟩

/-! ### Claims about `wait_for_processing` -/

/-- Claim C6: a service whose first status is `"completed"` makes
`wait_for_processing` return normally after exactly one status request and no
sleep. -/
theorem claim_C6 (svc : Nat → StatusResponse) (h : (svc 0).status = "completed") :
    wait_for_processing svc = .completed 1 0 := by
  rw [wait_for_processing, waitLoop]
  simp [TIMEOUT, h]

/-- Witness for C6: a mock service completing on the first poll. -/
theorem claim_C6_witness : wait_for_processing svcCompleted = .completed 1 0 :=
  claim_C6 svcCompleted rfl

/-- Claim C5: a service whose first status is `"error"` makes
`wait_for_processing` raise `ProcessingError` carrying the whole status
payload on the first poll, after exactly one status request and no sleep. -/
theorem claim_C5 (svc : Nat → StatusResponse) (h : (svc 0).status = "error") :
    wait_for_processing svc = .procError (svc 0) 1 0 := by
  rw [wait_for_processing, waitLoop]
  simp [TIMEOUT, h]

/-- Witness for C5: a mock service answering `"error"` on every poll. -/
theorem claim_C5_witness :
    wait_for_processing svcErrorAlways = .procError (svcErrorAlways 0) 1 0 :=
  claim_C5 svcErrorAlways rfl

/-- Claim C4: a service that never reaches a terminal status makes
`wait_for_processing` raise `TimeoutError` once the elapsed time (602 seconds,
one `POLLING_INTERVAL` sleep per poll) exceeds the `TIMEOUT` ceiling of 600;
the loop stops after 301 polls rather than running forever. -/
theorem claim_C4 (svc : Nat → StatusResponse)
    (hsvc : ∀ j, (svc j).status ≠ "completed" ∧ (svc j).status ≠ "error") :
    wait_for_processing svc = .timedOut 301 301 602 ∧ TIMEOUT < 602 := by
  constructor
  · have := waitLoop_stuck svc hsvc 301 0 0 (by simp [POLLING_INTERVAL])
    simpa [wait_for_processing] using this
  · simp [TIMEOUT]

/-- Witness for C4: a mock service reporting 0% progress forever still ends
in `TimeoutError`. -/
theorem claim_C4_witness :
    wait_for_processing svcStuck = .timedOut 301 301 602 ∧ TIMEOUT < 602 :=
  claim_C4 svcStuck (fun j => ⟨by simp [svcStuck], by simp [svcStuck]⟩)

end Forger

namespace Forger

/-! ### Claims about `__init__` and `process_pdf` -/

/-- Counterexample to claim C7: rejected credentials (a 401 from the service)
do not produce a distinct authentication error.  `process_pdf` raises the same
generic upload-failure exception it raises for any non-200 status; only
`__init__` can fail with the credentials error, and only for absent or empty
credentials. -/
theorem claim_C7_counterexample :
    process_pdf ⟨401, "Invalid credentials", ""⟩
      = Except.error (PdfError.uploadFailed "PDF processing failed: Invalid credentials")
    ∧ isAuthError (process_pdf ⟨401, "Invalid credentials", ""⟩) = false :=
  ⟨rfl, rfl⟩

/-- Claim C7 as amended: `__init__` fails with the missing-credentials error
exactly when a credential is absent or empty, and succeeds otherwise; the
upload fails with the generic upload error carrying the response body on any
non-200 status (credential rejection included), and returns the `pdf_id` field
on a 200. -/
theorem claim_C7 (a k : Option String) (resp : UploadResponse) :
    ((pyFalsy a || pyFalsy k) = true →
      mkProcessor a k = Except.error (PdfError.missingCredentials MISSING_CREDS_MSG))
    ∧ ((pyFalsy a || pyFalsy k) = false → ∃ p, mkProcessor a k = Except.ok p)
    ∧ (resp.status_code ≠ 200 →
      process_pdf resp
        = Except.error (PdfError.uploadFailed ("PDF processing failed: " ++ resp.text)))
    ∧ (resp.status_code = 200 → process_pdf resp = Except.ok resp.pdf_id) := by
  refine ⟨fun h => by rw [mkProcessor, if_pos h],
          fun h => ⟨_, by rw [mkProcessor, if_neg (by simp [h])]⟩,
          fun h => by rw [process_pdf, if_pos h],
          fun h => by rw [process_pdf, if_neg (by simp [h])]⟩

/-- Witness for C7: absent credentials, a rejected-credentials 401, a
server-side 500, and a successful upload. -/
theorem claim_C7_witness :
    mkProcessor none (some "key") = Except.error (PdfError.missingCredentials MISSING_CREDS_MSG)
    ∧ (∃ p, mkProcessor (some "id") (some "key") = Except.ok p)
    ∧ process_pdf ⟨401, "Invalid credentials", ""⟩
        = Except.error (PdfError.uploadFailed "PDF processing failed: Invalid credentials")
    ∧ process_pdf ⟨500, "boom", ""⟩
        = Except.error (PdfError.uploadFailed "PDF processing failed: boom")
    ∧ process_pdf ⟨200, "", "abc123"⟩ = Except.ok "abc123" := by
  refine ⟨(claim_C7 none (some "key") ⟨200, "", ""⟩).1 (by decide),
          (claim_C7 (some "id") (some "key") ⟨200, "", ""⟩).2.1 (by decide),
          ?_, ?_,
          (claim_C7 none (some "key") ⟨200, "", "abc123"⟩).2.2.2 rfl⟩
  · exact (claim_C7 none (some "key") ⟨401, "Invalid credentials", ""⟩).2.2.1 (by decide)
  · exact (claim_C7 none (some "key") ⟨500, "boom", ""⟩).2.2.1 (by decide)

end Forger

namespace Forger

lemma downloadLoop_dirs (svc : String → DlResponse) (dirPath : FsPath) (ts : String)
    (fmts : List String) : ∀ fs : FS,
    ((downloadLoop svc dirPath ts fmts fs).1).dirs = fs.dirs := by
  induction fmts with
  | nil => intro fs; rfl
  | cons fmt rest ih =>
    intro fs
    rw [downloadLoop]
    by_cases h : (svc fmt).status_code = 200
    · rw [if_pos h]; simpa using ih _
    · rw [if_neg h]; exact ih fs

lemma downloadLoop_map_fst (svc : String → DlResponse) (dirPath : FsPath) (ts : String)
    (fmts : List String) : ∀ fs : FS,
    (downloadLoop svc dirPath ts fmts fs).2.map Prod.fst
      = fmts.filter (fun f => decide ((svc f).status_code = 200)) := by
  induction fmts with
  | nil => intro fs; rfl
  | cons fmt rest ih =>
    intro fs
    rw [downloadLoop]
    by_cases h : (svc fmt).status_code = 200
    · rw [if_pos h]
      simp [List.filter_cons, h, ih]
    · rw [if_neg h]
      simp [List.filter_cons, h, ih]

lemma downloadLoop_mem (svc : String → DlResponse) (dirPath : FsPath) (ts : String)
    (fmts : List String) : ∀ (fs : FS) (fp : String × FsPath),
    fp ∈ (downloadLoop svc dirPath ts fmts fs).2 →
      fp.1 ∈ fmts ∧ fp.2 = dirPath ++ [fname ts fp.1] ∧ (svc fp.1).status_code = 200 := by
  induction fmts with
  | nil => intro fs fp hfp; simp [downloadLoop] at hfp
  | cons fmt rest ih =>
    intro fs fp hfp
    rw [downloadLoop] at hfp
    by_cases h : (svc fmt).status_code = 200
    · rw [if_pos h] at hfp
      rcases List.mem_cons.mp hfp with heq | hmem
      · subst heq; exact ⟨List.mem_cons_self _ _, rfl, h⟩
      · obtain ⟨h1, h2, h3⟩ := ih _ fp hmem
        exact ⟨List.mem_cons_of_mem _ h1, h2, h3⟩
    · rw [if_neg h] at hfp
      obtain ⟨h1, h2, h3⟩ := ih fs fp hfp
      exact ⟨List.mem_cons_of_mem _ h1, h2, h3⟩

lemma downloadLoop_read_frame (svc : String → DlResponse) (dirPath : FsPath) (ts : String)
    (fmts : List String) : ∀ (fs : FS) (p : FsPath),
    (∀ g ∈ fmts, p ≠ dirPath ++ [fname ts g]) →
      ((downloadLoop svc dirPath ts fmts fs).1).read p = fs.read p := by
  induction fmts with
  | nil => intro fs p _; rfl
  | cons fmt rest ih =>
    intro fs p hp
    rw [downloadLoop]
    by_cases h : (svc fmt).status_code = 200
    · rw [if_pos h]
      have hrest : ∀ g ∈ rest, p ≠ dirPath ++ [fname ts g] :=
        fun g hg => hp g (List.mem_cons_of_mem _ hg)
      have hwrite : (fs.write (dirPath ++ [fname ts fmt]) (svc fmt).content).read p = fs.read p := by
        rw [FS.write, FS.read, readFiles, if_neg]
        · rfl
        · exact fun heq => hp fmt (List.mem_cons_self _ _) heq.symm
      show ((downloadLoop svc dirPath ts rest
        (fs.write (dirPath ++ [fname ts fmt]) (svc fmt).content)).1).read p = fs.read p
      rw [ih _ p hrest, hwrite]
    · rw [if_neg h]
      exact ih fs p (fun g hg => hp g (List.mem_cons_of_mem _ hg))

lemma downloadLoop_read_written (svc : String → DlResponse) (dirPath : FsPath) (ts : String)
    (fmts : List String) : ∀ (fs : FS),
    fmts.Pairwise (fun a b => fname ts a ≠ fname ts b) →
    ∀ fp ∈ (downloadLoop svc dirPath ts fmts fs).2,
      ((downloadLoop svc dirPath ts fmts fs).1).read fp.2 = some (svc fp.1).content := by
  induction fmts with
  | nil => intro fs _ fp hfp; simp [downloadLoop] at hfp
  | cons fmt rest ih =>
    intro fs hpw fp hfp
    rw [downloadLoop] at hfp ⊢
    by_cases h : (svc fmt).status_code = 200
    · rw [if_pos h] at hfp ⊢
      rcases List.mem_cons.mp hfp with heq | hmem
      · subst heq
        have hfr : ∀ g ∈ rest, dirPath ++ [fname ts fmt] ≠ dirPath ++ [fname ts g] := by
          intro g hg heq
          exact (List.rel_of_pairwise_cons hpw hg) (by
            have := List.append_cancel_left heq
            simpa using this)
        show ((downloadLoop svc dirPath ts rest
          (fs.write (dirPath ++ [fname ts fmt]) (svc fmt).content)).1).read
            (dirPath ++ [fname ts fmt]) = some (svc fmt).content
        rw [downloadLoop_read_frame svc dirPath ts rest _ _ hfr]
        rw [FS.write, FS.read, readFiles, if_pos rfl]
      · have := ih _ hpw.of_cons fp hmem
        simpa using this
    · rw [if_neg h] at hfp ⊢
      exact ih fs hpw.of_cons fp hfp

end Forger

namespace Forger

lemma fname_length (ts fmt : String) :
    (fname ts fmt).length = 7 + ts.length + fmt.length := by
  have h1 : ("notes_" : String).length = 6 := rfl
  have h2 : ("." : String).length = 1 := rfl
  simp [fname, String.length_append, h1, h2]
  omega

lemma fname_ne_of_length (ts : String) {a b : String} (hab : a.length ≠ b.length) :
    fname ts a ≠ fname ts b := by
  intro h
  have := congrArg String.length h
  rw [fname_length, fname_length] at this
  omega

lemma FMT_pairwise (ts : String) :
    FMT_KEYS.Pairwise (fun a b => fname ts a ≠ fname ts b) := by
  rw [FMT_KEYS]
  refine List.Pairwise.cons (fun b hb => ?_)
    (List.Pairwise.cons (fun b hb => ?_) (List.Pairwise.cons (fun b hb => ?_) List.Pairwise.nil))
  · simp only [List.mem_cons, List.not_mem_nil, or_false] at hb
    rcases hb with rfl | rfl <;> exact fname_ne_of_length ts (by decide)
  · simp only [List.mem_cons, List.not_mem_nil, or_false] at hb
    subst hb; exact fname_ne_of_length ts (by decide)
  · simp at hb

end Forger

namespace Forger

/-- A download service answering 200 with body `"data"` for every format. -/
def svcAllOk : String → DlResponse := fun _ => ⟨200, "data"⟩

/-- A download service failing exactly on the `tex.zip` format. -/
def svcFailTex : String → DlResponse :=
  fun f => if f = "tex.zip" then ⟨404, "not found"⟩ else ⟨200, "data"⟩

/-- A download service whose every body is `"A"`. -/
def svcContentA : String → DlResponse := fun _ => ⟨200, "A"⟩

/-- A download service whose every body is `"B"`. -/
def svcContentB : String → DlResponse := fun _ => ⟨200, "B"⟩

/-- Claim C3: each format's download is attempted independently; a non-200
response is silently skipped without aborting (the embedding is a total
function), and the returned bundle holds exactly the formats whose download
returned 200, each mapped to its written file path — both for an arbitrary
requested-format list (the loop) and for the fixed `OUTPUT_FORMATS` keys used
by `download_results`. -/
theorem claim_C3 (svc : String → DlResponse) (dirPath : FsPath) (ts : String)
    (fmts : List String) (outDir : FsPath) (fs : FS) :
    ((downloadLoop svc dirPath ts fmts fs).2.map Prod.fst
      = fmts.filter (fun f => decide ((svc f).status_code = 200)))
    ∧ (∀ fp ∈ (downloadLoop svc dirPath ts fmts fs).2,
        fp.2 = dirPath ++ [fname ts fp.1] ∧ (svc fp.1).status_code = 200)
    ∧ ((download_results svc outDir ts fs).2.map Prod.fst
      = FMT_KEYS.filter (fun f => decide ((svc f).status_code = 200))) := by
  refine ⟨downloadLoop_map_fst svc dirPath ts fmts fs, fun fp hfp => ?_, ?_⟩
  · obtain ⟨_, h2, h3⟩ := downloadLoop_mem svc dirPath ts fmts fs fp hfp
    exact ⟨h2, h3⟩
  · rw [download_results]
    exact downloadLoop_map_fst svc _ ts FMT_KEYS _

/-- Witness for C3: with the `tex.zip` download failing, the bundle holds
exactly `mmd` and `html`, and the `mmd` entry's path is the one written under
the timestamp directory. -/
theorem claim_C3_witness :
    (download_results svcFailTex ["out"] "ts" ⟨[], []⟩).2.map Prod.fst = ["mmd", "html"]
    ∧ (["out", "ts", "notes_ts.mmd"] : FsPath) = ["out", "ts"] ++ [fname "ts" "mmd"]
    ∧ (svcFailTex "mmd").status_code = 200 := by
  have h := (claim_C3 svcFailTex ["out", "ts"] "ts" FMT_KEYS ["out"]
    (FS.mkdir ⟨[], []⟩ (["out"] ++ ["ts"]))).2.1
  have hmap := (claim_C3 svcFailTex [] "ts" [] ["out"] ⟨[], []⟩).2.2
  refine ⟨?_, ?_, ?_⟩
  · rw [hmap]; decide
  · exact (h ("mmd", ["out", "ts", "notes_ts.mmd"]) (by decide)).1
  · exact (h ("mmd", ["out", "ts", "notes_ts.mmd"]) (by decide)).2

/-- Claim C10: `download_results` always records the timestamped subdirectory
as created — even when every download fails — and every bundle entry's key is
one of the fixed `OUTPUT_FORMATS` keys with its value the path
`<destination>/<timestamp>/notes_<timestamp>.<fmt>`. -/
theorem claim_C10 (svc : String → DlResponse) (outDir : FsPath) (ts : String) (fs : FS) :
    (outDir ++ [ts]) ∈ ((download_results svc outDir ts fs).1).dirs
    ∧ ∀ fp ∈ (download_results svc outDir ts fs).2,
        fp.1 ∈ FMT_KEYS ∧ fp.2 = outDir ++ [ts, fname ts fp.1] := by
  constructor
  · rw [download_results, downloadLoop_dirs]
    exact List.mem_cons_self _ _
  · intro fp hfp
    rw [download_results] at hfp
    obtain ⟨h1, h2, _⟩ := downloadLoop_mem svc (outDir ++ [ts]) ts FMT_KEYS _ fp hfp
    refine ⟨h1, ?_⟩
    rw [h2, List.append_assoc]
    rfl

/-- Witness for C10: a service whose downloads all fail still creates the
directory, and a successful `mmd` entry has the advertised path shape. -/
theorem claim_C10_witness :
    (["out"] ++ ["ts"] : FsPath)
        ∈ ((download_results (fun _ => ⟨500, "err"⟩) ["out"] "ts" ⟨[], []⟩).1).dirs
    ∧ (download_results (fun _ => ⟨500, "err"⟩) ["out"] "ts" ⟨[], []⟩).2 = []
    ∧ ("mmd" : String) ∈ FMT_KEYS
    ∧ (["out", "ts", "notes_ts.mmd"] : FsPath) = ["out"] ++ ["ts", fname "ts" "mmd"] := by
  have h := (claim_C10 svcAllOk ["out"] "ts" ⟨[], []⟩).2
    ("mmd", ["out", "ts", "notes_ts.mmd"]) (by decide)
  exact ⟨(claim_C10 (fun _ => ⟨500, "err"⟩) ["out"] "ts" ⟨[], []⟩).1, by decide, h.1, h.2⟩

/-- Counterexample to claim C2: the timestamp has one-second resolution, so
two sequential calls within the same second take the same timestamp, land in
the same directory, and the second run's files overwrite the first's: after
the two runs the path written by run one holds run two's bytes. -/
theorem claim_C2_counterexample :
    ("mmd", (["out", "20250101_120000", "notes_20250101_120000.mmd"] : FsPath))
        ∈ (download_results svcContentA ["out"] "20250101_120000" ⟨[], []⟩).2
    ∧ FS.read (download_results svcContentA ["out"] "20250101_120000" ⟨[], []⟩).1
        ["out", "20250101_120000", "notes_20250101_120000.mmd"] = some "A"
    ∧ FS.read (download_results svcContentB ["out"] "20250101_120000"
          (download_results svcContentA ["out"] "20250101_120000" ⟨[], []⟩).1).1
        ["out", "20250101_120000", "notes_20250101_120000.mmd"] = some "B" := by
  refine ⟨by decide, by decide, by decide⟩

/-- Claim C2 as amended: two sequential `download_results` calls against the
same destination whose start-of-call timestamps differ write under different
subdirectories and do not overwrite each other: afterwards every file of run
one still holds run one's bytes and every file of run two holds run two's. -/
theorem claim_C2 (svc1 svc2 : String → DlResponse) (outDir : FsPath)
    (ts1 ts2 : String) (fs0 : FS) (hts : ts1 ≠ ts2) :
    outDir ++ [ts1] ≠ outDir ++ [ts2]
    ∧ (∀ fp ∈ (download_results svc1 outDir ts1 fs0).2,
        FS.read (download_results svc2 outDir ts2
            (download_results svc1 outDir ts1 fs0).1).1 fp.2
          = some (svc1 fp.1).content)
    ∧ (∀ fp ∈ (download_results svc2 outDir ts2
            (download_results svc1 outDir ts1 fs0).1).2,
        FS.read (download_results svc2 outDir ts2
            (download_results svc1 outDir ts1 fs0).1).1 fp.2
          = some (svc2 fp.1).content) := by
  refine ⟨fun h => hts (by simpa using List.append_cancel_left h), fun fp hfp => ?_,
    fun fp hfp => ?_⟩
  · rw [download_results] at hfp
    obtain ⟨_, h2, _⟩ := downloadLoop_mem svc1 (outDir ++ [ts1]) ts1 FMT_KEYS _ fp hfp
    have hframe : ∀ g ∈ FMT_KEYS, fp.2 ≠ (outDir ++ [ts2]) ++ [fname ts2 g] := by
      intro g _ heq
      rw [h2, List.append_assoc, List.append_assoc] at heq
      have := List.append_cancel_left heq
      simp only [List.cons_append, List.nil_append, List.cons.injEq] at this
      exact hts this.1
    rw [download_results, downloadLoop_read_frame svc2 (outDir ++ [ts2]) ts2 FMT_KEYS _ _ hframe]
    have hmk : FS.read (FS.mkdir (download_results svc1 outDir ts1 fs0).1 (outDir ++ [ts2])) fp.2
        = FS.read (download_results svc1 outDir ts1 fs0).1 fp.2 := rfl
    rw [hmk, download_results]
    exact downloadLoop_read_written svc1 (outDir ++ [ts1]) ts1 FMT_KEYS _
      (FMT_pairwise ts1) fp hfp
  · rw [download_results] at hfp ⊢
    exact downloadLoop_read_written svc2 (outDir ++ [ts2]) ts2 FMT_KEYS _
      (FMT_pairwise ts2) fp hfp

/-- Witness for C2 at timestamps `t1` and `t2`: both runs' `mmd` files exist
with their own bytes after the second run. -/
theorem claim_C2_witness :
    (["out"] ++ ["t1"] : FsPath) ≠ ["out"] ++ ["t2"]
    ∧ FS.read (download_results svcContentB ["out"] "t2"
          (download_results svcContentA ["out"] "t1" ⟨[], []⟩).1).1
        ["out", "t1", "notes_t1.mmd"] = some "A"
    ∧ FS.read (download_results svcContentB ["out"] "t2"
          (download_results svcContentA ["out"] "t1" ⟨[], []⟩).1).1
        ["out", "t2", "notes_t2.mmd"] = some "B" := by
  have h := claim_C2 svcContentA svcContentB ["out"] "t1" "t2" ⟨[], []⟩ (by decide)
  refine ⟨h.1, ?_, ?_⟩
  · exact h.2.1 ("mmd", ["out", "t1", "notes_t1.mmd"]) (by decide)
  · exact h.2.2 ("mmd", ["out", "t2", "notes_t2.mmd"]) (by decide)

end Forger
